import Mathlib

/-!
Verification of the document-fetching webhook in `src/api/main.py`.

The Python program is shallowly embedded: pure helpers (`urlparse`,
`os.path.splitext`, `mimetypes.guess_extension`, `_get_file_extension`)
become Lean functions over `String`/`List Char`; the stateful downloader
(`aiohttp` session, temp files, network GETs) becomes explicit state
passing over `DLState`, with the network abstracted as a function from
URL to outcome.  Exceptions become `Except` values whose constructors
mirror the exception classes the code raises or catches.
-/

/-- One maximal group-free split step: Python `s.split(c, 1)` succeeds iff the
separator occurs, returning the pieces before and after its first occurrence. -/
def splitOnceChar (c : Char) : List Char → Option (List Char × List Char)
  | [] => none
  | x :: xs =>
    if x = c then some ([], xs)
    else
      match splitOnceChar c xs with
      | some (a, b) => some (x :: a, b)
      | none => none

/-- Python `s.split(c)` for a single-character separator: splits at every
occurrence, keeping empty pieces (`"".split(c) = ['']`). -/
def splitChar (c : Char) : List Char → List (List Char)
  | [] => [[]]
  | x :: xs =>
    if x = c then [] :: splitChar c xs
    else
      match splitChar c xs with
      | g :: gs => (x :: g) :: gs
      | [] => [[x]]

/-- Python `s.rfind(c)`: index of the last occurrence of `c`, if any. -/
def rfindIdx (c : Char) (l : List Char) : Option Nat :=
  (l.reverse.findIdx? (fun x => x == c)).map (fun j => l.length - 1 - j)

/-- Python `str.startswith` on character lists. -/
def charsLead : List Char → List Char → Bool
  | [], _ => true
  | _ :: _, [] => false
  | a :: as, b :: bs => a == b && charsLead as bs

/-- Python `str.lower()` (ASCII, as used on extensions and schemes here). -/
def lowerStr (s : String) : String := String.mk (s.data.map Char.toLower)

/-- Characters permitted in a URL scheme by `urllib.parse` (`scheme_chars`). -/
def isSchemeChar (c : Char) : Bool :=
  c.isAlpha || c.isDigit || c == '+' || c == '-' || c == '.'

/-- Result of Python `urllib.parse.urlparse`, restricted to the components the
program reads (plus `params`/`query`/`fragment` so path extraction is exact). -/
structure UrlSplit where
  scheme : String
  netloc : String
  path : String
  params : String
  query : String
  fragment : String
deriving DecidableEq

/-- Scheme-splitting step of `urllib.parse.urlsplit`: a prefix before the first
colon is taken as the scheme when it is nonempty, starts with an ASCII letter
and contains only scheme characters; the scheme is lowercased. -/
def schemeSplit (u : List Char) : List Char × List Char :=
  match u.findIdx? (fun x => x == ':') with
  | some i =>
    if 0 < i ∧ (u.headD ' ').isAlpha = true ∧ (u.take i).all isSchemeChar = true then
      ((u.take i).map Char.toLower, u.drop (i + 1))
    else ([], u)
  | none => ([], u)

/-- Netloc-splitting step of `urllib.parse.urlsplit` (`_splitnetloc`): after a
leading `//`, the netloc extends to the next `/`, `?` or `#`. -/
def netlocSplit (u : List Char) : List Char × List Char :=
  match u with
  | '/' :: '/' :: r =>
    (match r.findIdx? (fun x => x == '/' || x == '?' || x == '#') with
     | some j => (r.take j, r.drop j)
     | none => (r, []))
  | _ => ([], u)

/-- Fragment-splitting step of `urlsplit`: split at the first `#`, if any. -/
def fragSplit (u : List Char) : List Char × List Char :=
  match splitOnceChar '#' u with
  | some (a, b) => (a, b)
  | none => (u, [])

/-- Query-splitting step of `urlsplit`: split at the first `?`, if any. -/
def querySplit (u : List Char) : List Char × List Char :=
  match splitOnceChar '?' u with
  | some (a, b) => (a, b)
  | none => (u, [])

/-- Params-splitting step of `urlparse` (`_splitparams`): when the path holds a
`;`, split at the first `;` at or after the last `/`. -/
def splitparams (p : List Char) : List Char × List Char :=
  if p.contains ';' then
    let start := match rfindIdx '/' p with
      | some k => k
      | none => 0
    match ((p.drop start).findIdx? (fun x => x == ';')).map (fun j => j + start) with
    | some i => (p.take i, p.drop (i + 1))
    | none => (p, [])
  else (p, [])

/-- Python `urllib.parse.urlparse`, assembled from the splitting steps in the
order `urlsplit` applies them. -/
def urlparse (url : String) : UrlSplit :=
  let sr := schemeSplit url.data
  let nr := netlocSplit sr.2
  let fr := fragSplit nr.2
  let qr := querySplit fr.1
  let pr := splitparams qr.1
  ⟨String.mk sr.1, String.mk nr.1, String.mk pr.1, String.mk pr.2,
   String.mk qr.2, String.mk fr.2⟩

/-- Python `os.path.splitext` (posix): split at the last dot of the basename,
unless every character of the basename before that dot is itself a dot. -/
def splitext (p : String) : String × String :=
  match rfindIdx '.' p.data with
  | none => (p, "")
  | some d =>
    let s := match rfindIdx '/' p.data with
      | none => 0
      | some k => k + 1
    if s ≤ d ∧ ((p.data.drop s).take (d - s)).any (fun x => x != '.') = true then
      (String.mk (p.data.take d), String.mk (p.data.drop d))
    else (p, "")

/-- The fragment of the stdlib `mimetypes` table relevant to this program. -/
def mimeTable : List (String × String) :=
  [("application/json", ".json"), ("application/pdf", ".pdf"),
   ("text/plain", ".txt"), ("text/html", ".html"),
   ("image/png", ".png"), ("text/csv", ".csv")]

/-- Embeds Python `mimetypes.guess_extension`: the stdlib lowercases the media
type and looks it up in its table; media types outside the `mimeTable` fragment
used by this development return `none`, as the stdlib does for unknown types. -/
def guess_extension (t : String) : Option String :=
  (mimeTable.find? (fun p => p.1 == lowerStr t)).map (fun p => p.2)

/-- Python `lst[0]` applied to the (always nonempty) result of `split`. -/
def headPart (l : List (List Char)) : List Char := l.headD []

/-- `DocumentDownloader._get_file_extension`: prefer the extension of the URL
path, then one derived from the content type, then `.bin`. -/
def get_file_extension (url : String) (content_type : String) : String :=
  let parsed := urlparse url
  if parsed.path ≠ "" ∧ (splitext parsed.path).2 ≠ "" then
    lowerStr (splitext parsed.path).2
  else if content_type ≠ "" ∧
      (guess_extension (String.mk (headPart (splitChar ';' content_type.data)))).isSome = true then
    lowerStr ((guess_extension (String.mk (headPart (splitChar ';' content_type.data)))).getD "")
  else ".bin"

/-- Exception values the code raises or catches: `ValueError`, FastAPI's
`HTTPException` (status code and detail), `aiohttp.ClientError`, and any other
`Exception`. -/
inductive Exc where
  | valueError (msg : String)
  | httpException (status : Nat) (detail : String)
  | clientError (msg : String)
  | otherError (msg : String)
deriving DecidableEq

/-- Python `str(e)` for the exception values above (Starlette's
`HTTPException.__str__` is `f"{status_code}: {detail}"`). -/
def excStr : Exc → String
  | .valueError m => m
  | .httpException st d => toString st ++ ": " ++ d
  | .clientError m => m
  | .otherError m => m

/-- A network response as the code observes it: status, the `content-type`
header if present, and the body bytes. -/
structure HttpResponse where
  status : Nat
  contentType : Option String
  body : List Nat
deriving DecidableEq

/-- Outcome of `session.get(url)` together with reading the body:
a response, an `aiohttp.ClientError`, or any other exception. -/
inductive GetOutcome where
  | success (resp : HttpResponse)
  | clientFailure (msg : String)
  | otherFailure (msg : String)
deriving DecidableEq

/-- The network environment: what a GET of each URL does. -/
def Net := String → GetOutcome

/-- Downloader and process state.  `session` is `DocumentDownloader.session`;
`sessionsCreated`, `sessionsClosed` and `sessionLog` are observation counters
recording client creations, teardowns and the client returned by each
`get_session` call; `tempCounter` models `tempfile`'s unique-name allocator;
`files` is the scratch directory (path and bytes of each live temp file);
`getTrace` records every URL a GET was issued for. -/
structure DLState where
  session : Option Nat
  sessionsCreated : Nat
  sessionsClosed : Nat
  sessionLog : List Nat
  tempCounter : Nat
  files : List (String × List Nat)
  getTrace : List String
deriving DecidableEq

/-- Fresh-process state. -/
def initialState : DLState := ⟨none, 0, 0, [], 0, [], []⟩

/-- `DocumentDownloader.get_session`: create the client on first use, reuse it
afterwards.  Returns the client (its id) and the updated state. -/
def get_session (s : DLState) : Nat × DLState :=
  match s.session with
  | some sid => (sid, { s with sessionLog := s.sessionLog ++ [sid] })
  | none =>
    let sid := s.sessionsCreated
    (sid, { s with session := some sid,
                   sessionsCreated := s.sessionsCreated + 1,
                   sessionLog := s.sessionLog ++ [sid] })

/-- `DocumentDownloader.close`: close the client if one exists (the field is
not cleared by the code). -/
def close (s : DLState) : DLState :=
  match s.session with
  | some _ => { s with sessionsClosed := s.sessionsClosed + 1 }
  | none => s

/-- The `shutdown` event handler: closes the shared downloader's client. -/
def shutdown_event (s : DLState) : DLState := close s

/-- Detail string of the `HTTPException` raised on a non-200 response. -/
def statusDetail (url : String) (st : Nat) : String :=
  "Failed to download document from " ++ url ++ ". Status: " ++ toString st

/-- The scratch path produced by `tempfile.NamedTemporaryFile` with the given
suffix, modelled by the allocator counter. -/
def mkTempPath (n : Nat) (suffix : String) : String :=
  "/tmp/tmp" ++ toString n ++ suffix

/-- The dictionary `download_document` returns on success. -/
structure DocInfo where
  url : String
  file_path : String
  content_type : String
  size : Nat
  extension : String
deriving DecidableEq

/-- The `try:` body of `DocumentDownloader.download_document`, before its
`except` clauses: acquire the session, validate the URL, GET it, check the
status, pick an extension, and write the temp file. -/
def download_body (net : Net) (url : String) (s : DLState) :
    Except Exc DocInfo × DLState :=
  let s1 := (get_session s).2
  if (urlparse url).scheme = "" ∨ (urlparse url).netloc = "" then
    (.error (.valueError ("Invalid URL: " ++ url)), s1)
  else
    let s2 := { s1 with getTrace := s1.getTrace ++ [url] }
    match net url with
    | .clientFailure m => (.error (.clientError m), s2)
    | .otherFailure m => (.error (.otherError m), s2)
    | .success resp =>
      if resp.status ≠ 200 then
        (.error (.httpException 400 (statusDetail url resp.status)), s2)
      else
        let content_type := resp.contentType.getD ""
        let file_extension := get_file_extension url content_type
        let temp_file_path := mkTempPath s2.tempCounter file_extension
        (.ok { url := url, file_path := temp_file_path,
               content_type := content_type, size := resp.body.length,
               extension := file_extension },
         { s2 with tempCounter := s2.tempCounter + 1,
                   files := s2.files ++ [(temp_file_path, resp.body)] })

/-- The fault `download_document` raises: the original exception from the
`try:` body together with the status and detail of the `HTTPException` that
the matching `except` clause raises in its place. -/
structure FetchFault where
  origin : Exc
  status : Nat
  detail : String
deriving DecidableEq

/-- The `except` clauses of `download_document`: `aiohttp.ClientError` becomes
a 400 network-error `HTTPException`; every other exception — including the
`HTTPException(400)` from the status check and the `ValueError` from URL
validation — is caught by `except Exception` and becomes a 500. -/
def wrapExc (url : String) (e : Exc) : FetchFault :=
  match e with
  | .clientError m => ⟨.clientError m, 400, "Network error downloading " ++ url ++ ": " ++ m⟩
  | e => ⟨e, 500, "Error downloading " ++ url ++ ": " ++ excStr e⟩

/-- `DocumentDownloader.download_document`: the `try:` body with its `except`
clauses applied to whatever the body raises. -/
def download_document (net : Net) (url : String) (s : DLState) :
    Except FetchFault DocInfo × DLState :=
  match download_body net url s with
  | (.ok info, s') => (.ok info, s')
  | (.error e, s') => (.error (wrapExc url e), s')

/-- The request body of `POST /hackrx/run`: `documents` is a single URL string
or a list of URL strings, plus the questions. -/
structure RequestBody where
  documents : Sum String (List String)
  questions : List String

/-- An `HTTPException` as the endpoint surfaces it: HTTP status and detail. -/
structure HttpError where
  status : Nat
  detail : String
deriving DecidableEq

/-- The string/list normalization of the `documents` field in `run_webhook`. -/
def documentUrls : Sum String (List String) → List String
  | .inl u => [u]
  | .inr l => l

/-- The download loop of `run_webhook`: fetch each URL in order; the per-URL
`except Exception` turns any failure into `HTTPException(400, "Failed to
download document: <url>")`, aborting the loop. -/
def downloadAll (net : Net) (urls : List String) (s : DLState) :
    Except HttpError (List DocInfo) × DLState :=
  match urls with
  | [] => (.ok [], s)
  | url :: rest =>
    match download_document net url s with
    | (.ok info, s') =>
      (match downloadAll net rest s' with
       | (.ok docs, s'') => (.ok (info :: docs), s'')
       | (.error e, s'') => (.error e, s''))
    | (.error _, s') => (.error ⟨400, "Failed to download document: " ++ url⟩, s')

/-- The placeholder answer template of `run_webhook` (line 156): built solely
from the chosen document's extension and size and the question text. -/
def answerTemplate (ext : String) (size : Nat) (q : String) : String :=
  "Based on downloaded " ++ ext ++ " document (" ++ toString size ++
    " bytes): This is a placeholder answer for \x27" ++ q ++ "\x27"

/-- The per-question answer: the first downloaded document's metadata feeds the
template; with no documents a fallback string is produced. -/
def answerFor (docs : List DocInfo) (q : String) : String :=
  match docs.head? with
  | some d => answerTemplate d.extension d.size q
  | none => "No documents available to answer: " ++ q

/-- Delete one scratch file; `os.unlink` errors are swallowed, so deleting an
absent path is a no-op. -/
def removeFile (files : List (String × List Nat)) (path : String) :
    List (String × List Nat) :=
  files.filter (fun f => f.1 ≠ path)

/-- The cleanup loop of `run_webhook` (lines 161-166). -/
def cleanupDocs (docs : List DocInfo) (s : DLState) : DLState :=
  docs.foldl (fun st d => { st with files := removeFile st.files d.file_path }) s

/-- The `token != API_KEY` comparison: `API_KEY` is `os.getenv("API_KEY")`, so
with the variable unset no token compares equal. -/
def tokenMatches (apiKey : Option String) (token : String) : Bool :=
  match apiKey with
  | some k => token == k
  | none => false

/-- The `POST /hackrx/run` handler.  The `authorization` parameter is declared
`Header(...)` (required), and FastAPI rejects a request missing a required
header with a 422 validation response before the handler body runs; that
framework behaviour is the `none` branch.  The rest follows the handler: the
Bearer-prefix check (401), the token comparison (403), the empty-documents
check (400), the download loop, the placeholder answers, and the temp-file
cleanup — which, as in the source, runs only when the whole `try:` body
succeeds. -/
def run_webhook (net : Net) (apiKey : Option String) (authorization : Option String)
    (body : RequestBody) (s : DLState) :
    Except HttpError (List String) × DLState :=
  match authorization with
  | none => (.error ⟨422, "Field required"⟩, s)
  | some auth =>
    if charsLead ("Bearer ".data) auth.data = true then
      if tokenMatches apiKey (String.mk ((splitChar ' ' auth.data).getD 1 [])) = true then
        let document_urls := documentUrls body.documents
        if document_urls.isEmpty = true then
          (.error ⟨400, "No documents provided"⟩, s)
        else
          match downloadAll net document_urls s with
          | (.ok downloaded_docs, s') =>
            let answers := body.questions.map (answerFor downloaded_docs)
            (.ok answers, cleanupDocs downloaded_docs s')
          | (.error e, s') => (.error e, s')
      else (.error ⟨403, "Invalid API Key"⟩, s)
    else (.error ⟨401, "Missing Bearer token"⟩, s)

/-- A network where every GET fails with a generic (non-`ClientError`)
exception. -/
def netStub : Net := fun _ => .otherFailure "boom"

/-- A network where the first document downloads fine and every other host
raises `aiohttp.ClientError`. -/
def netMixed : Net := fun url =>
  if url = "http://a.example/doc.pdf" then
    .success ⟨200, some "application/pdf", [1, 2, 3]⟩
  else .clientFailure "Cannot connect to host b.example:80"

/-- A network answering every GET with status 201 (a success-class status). -/
def net201 : Net := fun _ => .success ⟨201, some "text/plain", []⟩

/-- A network answering every GET with status 404. -/
def net404 : Net := fun _ => .success ⟨404, some "text/html", [0]⟩

theorem get_session_getTrace (s : DLState) : ((get_session s).2).getTrace = s.getTrace := by
  cases hs : s.session <;> simp [get_session, hs]

theorem get_session_files (s : DLState) : ((get_session s).2).files = s.files := by
  cases hs : s.session <;> simp [get_session, hs]

theorem get_session_tempCounter (s : DLState) :
    ((get_session s).2).tempCounter = s.tempCounter := by
  cases hs : s.session <;> simp [get_session, hs]

theorem get_session_sessionsClosed (s : DLState) :
    ((get_session s).2).sessionsClosed = s.sessionsClosed := by
  cases hs : s.session <;> simp [get_session, hs]

theorem download_document_invalid (net : Net) (url : String) (s : DLState)
    (h : (urlparse url).scheme = "" ∨ (urlparse url).netloc = "") :
    download_document net url s
      = (.error ⟨.valueError ("Invalid URL: " ++ url), 500,
          "Error downloading " ++ url ++ ": " ++ ("Invalid URL: " ++ url)⟩,
         (get_session s).2) := by
  simp [download_document, download_body, h, wrapExc, excStr]

theorem download_document_clientError (net : Net) (url m : String) (s : DLState)
    (hv : ¬((urlparse url).scheme = "" ∨ (urlparse url).netloc = ""))
    (hn : net url = .clientFailure m) :
    download_document net url s
      = (.error ⟨.clientError m, 400, "Network error downloading " ++ url ++ ": " ++ m⟩,
         { (get_session s).2 with getTrace := ((get_session s).2).getTrace ++ [url] }) := by
  simp [download_document, download_body, hv, hn, wrapExc]

theorem download_document_otherError (net : Net) (url m : String) (s : DLState)
    (hv : ¬((urlparse url).scheme = "" ∨ (urlparse url).netloc = ""))
    (hn : net url = .otherFailure m) :
    download_document net url s
      = (.error ⟨.otherError m, 500, "Error downloading " ++ url ++ ": " ++ m⟩,
         { (get_session s).2 with getTrace := ((get_session s).2).getTrace ++ [url] }) := by
  simp [download_document, download_body, hv, hn, wrapExc, excStr]

theorem download_document_badStatus (net : Net) (url : String) (resp : HttpResponse)
    (s : DLState)
    (hv : ¬((urlparse url).scheme = "" ∨ (urlparse url).netloc = ""))
    (hn : net url = .success resp) (hs : resp.status ≠ 200) :
    download_document net url s
      = (.error ⟨.httpException 400 (statusDetail url resp.status), 500,
          "Error downloading " ++ url ++ ": " ++ excStr (.httpException 400 (statusDetail url resp.status))⟩,
         { (get_session s).2 with getTrace := ((get_session s).2).getTrace ++ [url] }) := by
  simp [download_document, download_body, hv, hn, hs, wrapExc]

theorem download_document_ok (net : Net) (url : String) (resp : HttpResponse) (s : DLState)
    (hv : ¬((urlparse url).scheme = "" ∨ (urlparse url).netloc = ""))
    (hn : net url = .success resp) (hs : resp.status = 200) :
    (download_document net url s).1
      = .ok { url := url,
              file_path := mkTempPath s.tempCounter (get_file_extension url (resp.contentType.getD "")),
              content_type := resp.contentType.getD "",
              size := resp.body.length,
              extension := get_file_extension url (resp.contentType.getD "") } ∧
    (download_document net url s).2.getTrace = s.getTrace ++ [url] ∧
    (download_document net url s).2.files
      = s.files ++ [(mkTempPath s.tempCounter (get_file_extension url (resp.contentType.getD "")), resp.body)] := by
  refine ⟨?_, ?_, ?_⟩ <;>
    simp [download_document, download_body, hv, hn, hs, get_session_getTrace,
      get_session_files, get_session_tempCounter]

/-- A fetch of `url` succeeds exactly when the URL passes validation and the
GET comes back with status 200. -/
def fetchOk (net : Net) (url : String) : Bool :=
  !((urlparse url).scheme == "" || (urlparse url).netloc == "") &&
  (match net url with
   | .success resp => resp.status == 200
   | _ => false)

theorem fetchOk_valid (net : Net) (url : String) (h : fetchOk net url = true) :
    ¬((urlparse url).scheme = "" ∨ (urlparse url).netloc = "") := by
  unfold fetchOk at h
  rcases Bool.and_eq_true_iff.mp h with ⟨h1, _⟩
  simpa using h1

theorem fetchOk_success (net : Net) (url : String) (h : fetchOk net url = true) :
    ∃ resp, net url = .success resp ∧ resp.status = 200 := by
  unfold fetchOk at h
  rcases Bool.and_eq_true_iff.mp h with ⟨_, h2⟩
  cases hn : net url with
  | success resp => rw [hn] at h2; exact ⟨resp, rfl, by simpa using h2⟩
  | clientFailure m => rw [hn] at h2; simp at h2
  | otherFailure m => rw [hn] at h2; simp at h2

theorem download_document_ok_of_fetchOk (net : Net) (url : String) (s : DLState)
    (h : fetchOk net url = true) :
    ∃ info s', download_document net url s = (.ok info, s') ∧ info.url = url ∧
      s'.getTrace = s.getTrace ++ [url] := by
  obtain ⟨resp, hn, hs⟩ := fetchOk_success net url h
  have hv := fetchOk_valid net url h
  obtain ⟨h1, h2, _⟩ := download_document_ok net url resp s hv hn hs
  refine ⟨⟨url, mkTempPath s.tempCounter (get_file_extension url (resp.contentType.getD "")),
      resp.contentType.getD "", resp.body.length,
      get_file_extension url (resp.contentType.getD "")⟩,
    (download_document net url s).2, ?_, rfl, h2⟩
  calc download_document net url s
      = ((download_document net url s).1, (download_document net url s).2) := rfl
    _ = _ := by rw [h1]

theorem download_document_error_of_not_fetchOk (net : Net) (url : String) (s : DLState)
    (h : fetchOk net url = false) :
    ∃ f s', download_document net url s = (.error f, s') ∧
      s'.getTrace = s.getTrace ++
        (if (urlparse url).scheme = "" ∨ (urlparse url).netloc = "" then [] else [url]) := by
  by_cases hv : (urlparse url).scheme = "" ∨ (urlparse url).netloc = ""
  · refine ⟨_, _, download_document_invalid net url s hv, ?_⟩
    simp [hv, get_session_getTrace]
  · cases hn : net url with
    | clientFailure m =>
      refine ⟨_, _, download_document_clientError net url m s hv hn, ?_⟩
      simp [hv, get_session_getTrace]
    | otherFailure m =>
      refine ⟨_, _, download_document_otherError net url m s hv hn, ?_⟩
      simp [hv, get_session_getTrace]
    | success resp =>
      have hs : resp.status ≠ 200 := by
        intro hs200
        have : fetchOk net url = true := by
          unfold fetchOk
          rw [hn]
          simp [hs200]
          simpa using hv
        rw [this] at h
        simp at h
      refine ⟨_, _, download_document_badStatus net url resp s hv hn hs, ?_⟩
      simp [hv, get_session_getTrace]

theorem download_document_ok_url (net : Net) (u : String) (s : DLState) (info : DocInfo)
    (h : (download_document net u s).1 = .ok info) : info.url = u := by
  by_cases hv : (urlparse u).scheme = "" ∨ (urlparse u).netloc = ""
  · rw [download_document_invalid net u s hv] at h
    simp at h
  · cases hn : net u with
    | clientFailure m =>
      rw [download_document_clientError net u m s hv hn] at h
      simp at h
    | otherFailure m =>
      rw [download_document_otherError net u m s hv hn] at h
      simp at h
    | success resp =>
      by_cases hs : resp.status = 200
      · have h1 := (download_document_ok net u resp s hv hn hs).1
        rw [h1] at h
        simp only [Except.ok.injEq] at h
        rw [← h]
      · rw [download_document_badStatus net u resp s hv hn hs] at h
        simp at h

theorem downloadAll_ok_map (net : Net) (urls : List String) (s : DLState)
    (docs : List DocInfo) (s' : DLState)
    (h : downloadAll net urls s = (.ok docs, s')) :
    docs.map DocInfo.url = urls := by
  induction urls generalizing s docs s' with
  | nil =>
    simp only [downloadAll, Prod.mk.injEq, Except.ok.injEq] at h
    rw [← h.1]
    rfl
  | cons u rest ih =>
    rcases hd : download_document net u s with ⟨r, s1⟩
    cases r with
    | error f => simp [downloadAll, hd] at h
    | ok info =>
      rcases hrest : downloadAll net rest s1 with ⟨r2, s2⟩
      cases r2 with
      | error e => simp [downloadAll, hd, hrest] at h
      | ok docs2 =>
        simp only [downloadAll, hd, hrest, Prod.mk.injEq, Except.ok.injEq] at h
        have hiu : info.url = u := download_document_ok_url net u s info (by rw [hd])
        rw [← h.1]
        simp [hiu, ih s1 docs2 s2 (by rw [hrest])]

theorem downloadAll_all_ok (net : Net) (urls : List String) (s : DLState)
    (h : ∀ u ∈ urls, fetchOk net u = true) :
    ∃ docs s', downloadAll net urls s = (.ok docs, s') ∧
      docs.map DocInfo.url = urls ∧ s'.getTrace = s.getTrace ++ urls := by
  induction urls generalizing s with
  | nil => exact ⟨[], s, rfl, rfl, by simp⟩
  | cons u rest ih =>
    obtain ⟨info, s1, hd, hu, ht⟩ := download_document_ok_of_fetchOk net u s (h u (by simp))
    obtain ⟨docs, s2, hrest, hmap, ht2⟩ := ih s1 (fun v hv => h v (by simp [hv]))
    refine ⟨info :: docs, s2, ?_, by simp [hmap, hu], by rw [ht2, ht]; simp⟩
    simp only [downloadAll, hd, hrest]

theorem downloadAll_first_error (net : Net) (pre : List String) (u : String)
    (post : List String) (s : DLState)
    (hpre : ∀ v ∈ pre, fetchOk net v = true) (hu : fetchOk net u = false) :
    ∃ s', downloadAll net (pre ++ u :: post) s
        = (.error ⟨400, "Failed to download document: " ++ u⟩, s') ∧
      s'.getTrace = s.getTrace ++ pre ++
        (if (urlparse u).scheme = "" ∨ (urlparse u).netloc = "" then [] else [u]) := by
  induction pre generalizing s with
  | nil =>
    obtain ⟨f, s', hd, ht⟩ := download_document_error_of_not_fetchOk net u s hu
    refine ⟨s', ?_, by simpa using ht⟩
    rw [List.nil_append]
    simp only [downloadAll, hd]
  | cons v vs ih =>
    obtain ⟨info, s1, hd, _, ht⟩ := download_document_ok_of_fetchOk net v s (hpre v (by simp))
    obtain ⟨s', h1, h2⟩ := ih s1 (fun w hw => hpre w (by simp [hw]))
    refine ⟨s', ?_, ?_⟩
    · rw [List.cons_append]
      simp only [downloadAll, hd, h1]
    · rw [h2, ht]
      simp

/-- HTTP success-class statuses (2xx), the standard reading of a
"success status". -/
def isSuccessStatus (n : Nat) : Prop := 200 ≤ n ∧ n < 300

/-- Claim C1 (code bug): for the batch whose first fetch succeeds (creating
the scratch file `/tmp/tmp0.pdf`) and whose second fetch fails, the endpoint
aborts with the 400 batch fault, but the first locator's scratch file is still
present when the batch concludes — the cleanup loop sits inside the `try:`
after answer generation, so the per-URL failure skips it and the scratch file
leaks, contrary to the claim. -/
theorem batch_failure_leaks_first_scratch_file :
    (run_webhook netMixed (some "k") (some "Bearer k")
        ⟨.inr ["http://a.example/doc.pdf", "http://b.example/x"], ["q"]⟩ initialState).1
      = .error ⟨400, "Failed to download document: http://b.example/x"⟩ ∧
    (run_webhook netMixed (some "k") (some "Bearer k")
        ⟨.inr ["http://a.example/doc.pdf", "http://b.example/x"], ["q"]⟩ initialState).2.files
      = [("/tmp/tmp0.pdf", [1, 2, 3])] :=
  ⟨rfl, rfl⟩

/-- Claim C2 counterexample: a GET failing with a generic (non-`ClientError`)
exception is wrapped by `download_document` into an internal-error
`HTTPException(500)`, but the endpoint's per-locator `except Exception`
converts it into a 400, so the endpoint surfaces the unclassified fault as
HTTP 400, not 500 as the claim states. -/
theorem unclassified_fault_endpoint_returns_400 :
    (download_document netStub "http://c.example/y" initialState).1
      = .error ⟨.otherError "boom", 500, "Error downloading http://c.example/y: boom"⟩ ∧
    (run_webhook netStub (some "k") (some "Bearer k")
        ⟨.inr ["http://c.example/y"], ["q"]⟩ initialState).1
      = .error ⟨400, "Failed to download document: http://c.example/y"⟩ :=
  ⟨rfl, rfl⟩

/-- Claim C2 (amended): every fault arising during fetch that is not a
network (`ClientError`) fault — in particular any generic exception — is
reported by `fetch` as the internal-error fault (an `HTTPException` with
status 500 and a descriptive reason) rather than propagating unhandled; the
endpoint, however, surfaces it as HTTP 400 naming the locator, not 500. -/
theorem unclassified_fault_internal_error_wrapped (net : Net) (url m auth : String)
    (apiKey : Option String) (rest qs : List String) (s : DLState)
    (hv : ¬((urlparse url).scheme = "" ∨ (urlparse url).netloc = ""))
    (hn : net url = .otherFailure m)
    (hb : charsLead ("Bearer ".data) auth.data = true)
    (ht : tokenMatches apiKey (String.mk ((splitChar ' ' auth.data).getD 1 [])) = true) :
    (download_document net url s).1
      = .error ⟨.otherError m, 500, "Error downloading " ++ url ++ ": " ++ m⟩ ∧
    (run_webhook net apiKey (some auth) ⟨.inr (url :: rest), qs⟩ s).1
      = .error ⟨400, "Failed to download document: " ++ url⟩ := by
  have hd := download_document_otherError net url m s hv hn
  constructor
  · rw [hd]
  · have ht2 : tokenMatches apiKey (String.mk ((splitChar ' ' auth.data)[1]?.getD [])) = true := by
      simpa [List.getD] using ht
    simp [run_webhook, hb, ht2, documentUrls, downloadAll, hd]

theorem unclassified_fault_internal_error_wrapped_witness :
    (¬((urlparse "http://c.example/y").scheme = ""
        ∨ (urlparse "http://c.example/y").netloc = "")) ∧
    netStub "http://c.example/y" = .otherFailure "boom" ∧
    charsLead ("Bearer ".data) "Bearer k".data = true ∧
    tokenMatches (some "k") (String.mk ((splitChar ' ' "Bearer k".data).getD 1 [])) = true ∧
    ((download_document netStub "http://c.example/y" initialState).1
        = .error ⟨.otherError "boom", 500, "Error downloading http://c.example/y: boom"⟩ ∧
     (run_webhook netStub (some "k") (some "Bearer k")
         ⟨.inr ["http://c.example/y"], ["q"]⟩ initialState).1
        = .error ⟨400, "Failed to download document: http://c.example/y"⟩) :=
  ⟨by decide, rfl, by decide, by decide,
   unclassified_fault_internal_error_wrapped netStub "http://c.example/y" "boom" "Bearer k"
     (some "k") [] ["q"] initialState (by decide) rfl (by decide) (by decide)⟩

/-- Claim C3: a locator missing a scheme or an authority makes
`download_document` fail at validation with the invalid-URL `ValueError`
(the invalid-locator fault) — no GET is issued (the network trace is
unchanged) and no scratch file is created. -/
theorem invalid_locator_no_network_call (net : Net) (url : String) (s : DLState)
    (h : (urlparse url).scheme = "" ∨ (urlparse url).netloc = "") :
    (download_document net url s).1
      = .error ⟨.valueError ("Invalid URL: " ++ url), 500,
          "Error downloading " ++ url ++ ": " ++ ("Invalid URL: " ++ url)⟩ ∧
    (download_document net url s).2.getTrace = s.getTrace ∧
    (download_document net url s).2.files = s.files := by
  rw [download_document_invalid net url s h]
  exact ⟨rfl, get_session_getTrace s, get_session_files s⟩

theorem invalid_locator_no_network_call_witness :
    ((urlparse "example.com/x").scheme = "" ∨ (urlparse "example.com/x").netloc = "") ∧
    ((download_document netStub "example.com/x" initialState).1
        = .error ⟨.valueError "Invalid URL: example.com/x", 500,
            "Error downloading example.com/x: Invalid URL: example.com/x"⟩ ∧
     (download_document netStub "example.com/x" initialState).2.getTrace = ([] : List String) ∧
     (download_document netStub "example.com/x" initialState).2.files
        = ([] : List (String × List Nat))) :=
  ⟨Or.inl (by decide),
   invalid_locator_no_network_call netStub "example.com/x" initialState (Or.inl (by decide))⟩

/-- Claim C4 counterexample: 201 is a success-class HTTP status, yet the
status check `response.status != 200` makes the fetch of a 201 response
produce the http-error fault (the `HTTPException(400)` carrying the status in
its detail, itself rewrapped to a 500 by `except Exception`), contradicting
the claim that no success-status response yields an http-error fault. -/
theorem status_201_success_yields_http_error :
    isSuccessStatus 201 ∧
    (download_document net201 "http://d.example/z" initialState).1
      = .error ⟨.httpException 400
            "Failed to download document from http://d.example/z. Status: 201", 500,
          "Error downloading http://d.example/z: 400: Failed to download document from http://d.example/z. Status: 201"⟩ :=
  ⟨⟨by decide, by decide⟩, rfl⟩

/-- Claim C4 (amended): for a GET that yields a response, the fetch produces
the http-error fault — the `HTTPException(400)` whose detail carries the
response status code — if and only if the status differs from exactly 200
(success statuses other than 200 included); when it does, the body is
discarded: no scratch file is created. -/
theorem http_error_iff_status_ne_200 (net : Net) (url : String) (resp : HttpResponse)
    (s : DLState)
    (hv : ¬((urlparse url).scheme = "" ∨ (urlparse url).netloc = ""))
    (hn : net url = .success resp) :
    ((download_document net url s).1
        = .error (wrapExc url (.httpException 400 (statusDetail url resp.status)))
      ↔ resp.status ≠ 200) ∧
    (resp.status ≠ 200 → (download_document net url s).2.files = s.files) := by
  constructor
  · constructor
    · intro h hs200
      have h1 := (download_document_ok net url resp s hv hn hs200).1
      rw [h1] at h
      simp at h
    · intro hs
      rw [download_document_badStatus net url resp s hv hn hs]
      rfl
  · intro hs
    rw [download_document_badStatus net url resp s hv hn hs]
    exact get_session_files s

theorem http_error_iff_status_ne_200_witness :
    (¬((urlparse "http://d.example/z").scheme = ""
        ∨ (urlparse "http://d.example/z").netloc = "")) ∧
    net404 "http://d.example/z" = .success ⟨404, some "text/html", [0]⟩ ∧
    (((download_document net404 "http://d.example/z" initialState).1
        = .error (wrapExc "http://d.example/z"
            (.httpException 400 (statusDetail "http://d.example/z" 404)))
      ↔ (404 : Nat) ≠ 200) ∧
     ((404 : Nat) ≠ 200 →
      (download_document net404 "http://d.example/z" initialState).2.files
        = ([] : List (String × List Nat)))) :=
  ⟨by decide, rfl,
   http_error_iff_status_ne_200 net404 "http://d.example/z" ⟨404, some "text/html", [0]⟩
     initialState (by decide) rfl⟩

/-- Claim C5: the chosen file extension prefers (a) the extension of the
locator's path component, then (b) the extension the `mimetypes` table derives
from the declared content type, then (c) the `.bin` fallback; in particular a
`.pdf` path with content-type `text/plain` gives `.pdf`, an extension-less
path with `application/json` gives `.json`, and an extension-less path with an
unrecognized or empty content type gives `.bin`. -/
theorem extension_preference_order :
    (∀ url ct e, (urlparse url).path ≠ "" → (splitext (urlparse url).path).2 = e →
        e ≠ "" → get_file_extension url ct = lowerStr e) ∧
    (∀ url ct e, ((urlparse url).path = "" ∨ (splitext (urlparse url).path).2 = "") →
        ct ≠ "" → guess_extension (String.mk (headPart (splitChar ';' ct.data))) = some e →
        get_file_extension url ct = lowerStr e) ∧
    (∀ url ct, ((urlparse url).path = "" ∨ (splitext (urlparse url).path).2 = "") →
        (ct = "" ∨ guess_extension (String.mk (headPart (splitChar ';' ct.data))) = none) →
        get_file_extension url ct = ".bin") ∧
    get_file_extension "https://x.example/a.pdf" "text/plain" = ".pdf" ∧
    get_file_extension "https://x.example/a" "application/json" = ".json" ∧
    get_file_extension "https://x.example/a" "application/x-unknown" = ".bin" ∧
    get_file_extension "https://x.example/a" "" = ".bin" := by
  refine ⟨?_, ?_, ?_, rfl, rfl, rfl, rfl⟩
  · intro url ct e hp he hne
    simp [get_file_extension, hp, he, hne]
  · intro url ct e hor hct hg
    rcases hor with h | h <;> simp [get_file_extension, h, hct, hg]
  · intro url ct hor h2
    rcases hor with h | h <;> rcases h2 with h2 | h2 <;>
      simp [get_file_extension, h, h2]

theorem extension_preference_order_witness :
    get_file_extension "https://x.example/a.pdf" "text/plain" = ".pdf" :=
  extension_preference_order.2.2.2.1

/-- Claim C6 counterexample: with the Authorization header absent, the
endpoint responds 422 (FastAPI's validation error for a missing required
header), not 401 as the claim states. -/
theorem absent_auth_header_yields_422 :
    (run_webhook netStub (some "secret") none
        ⟨.inr ["http://a.example/doc.pdf"], ["q"]⟩ initialState).1
      = .error ⟨422, "Field required"⟩ ∧ (422 : Nat) ≠ 401 :=
  ⟨rfl, by decide⟩

/-- Claim C6 (amended): an absent Authorization header yields HTTP 422 (the
framework's validation error for a missing required header); a header present
but missing the `Bearer ` prefix yields 401; a Bearer token that mismatches
the configured secret yields 403 — and in every case the state is returned
untouched, so the response is produced before any download attempt. -/
theorem auth_check_statuses (net : Net) (apiKey : Option String) (auth : String)
    (body : RequestBody) (s : DLState) :
    run_webhook net apiKey none body s = (.error ⟨422, "Field required"⟩, s) ∧
    (charsLead ("Bearer ".data) auth.data = false →
        run_webhook net apiKey (some auth) body s
          = (.error ⟨401, "Missing Bearer token"⟩, s)) ∧
    (charsLead ("Bearer ".data) auth.data = true →
      tokenMatches apiKey (String.mk ((splitChar ' ' auth.data).getD 1 [])) = false →
        run_webhook net apiKey (some auth) body s
          = (.error ⟨403, "Invalid API Key"⟩, s)) := by
  refine ⟨rfl, ?_, ?_⟩
  · intro h
    simp [run_webhook, h]
  · intro hb ht
    have ht2 : tokenMatches apiKey (String.mk ((splitChar ' ' auth.data)[1]?.getD [])) = false := by
      simpa [List.getD] using ht
    simp [run_webhook, hb, ht2]

theorem auth_check_statuses_witness :
    run_webhook netStub (some "secret") none ⟨.inr ["u"], ["q"]⟩ initialState
        = (.error ⟨422, "Field required"⟩, initialState) ∧
    (charsLead ("Bearer ".data) "Bearer wrong".data = false →
        run_webhook netStub (some "secret") (some "Bearer wrong")
            ⟨.inr ["u"], ["q"]⟩ initialState
          = (.error ⟨401, "Missing Bearer token"⟩, initialState)) ∧
    (charsLead ("Bearer ".data) "Bearer wrong".data = true →
      tokenMatches (some "secret")
          (String.mk ((splitChar ' ' "Bearer wrong".data).getD 1 [])) = false →
        run_webhook netStub (some "secret") (some "Bearer wrong")
            ⟨.inr ["u"], ["q"]⟩ initialState
          = (.error ⟨403, "Invalid API Key"⟩, initialState)) :=
  auth_check_statuses netStub (some "secret") "Bearer wrong" ⟨.inr ["u"], ["q"]⟩ initialState

/-- Claim C7: an authenticated request whose documents field is the empty list
fails with the no-locators fault (`HTTPException(400, "No documents
provided")`) and the endpoint returns 400 with the state untouched — no fetch
is attempted. -/
theorem empty_documents_no_locators_400 (net : Net) (apiKey : Option String)
    (auth : String) (qs : List String) (s : DLState)
    (hb : charsLead ("Bearer ".data) auth.data = true)
    (ht : tokenMatches apiKey (String.mk ((splitChar ' ' auth.data).getD 1 [])) = true) :
    run_webhook net apiKey (some auth) ⟨.inr [], qs⟩ s
      = (.error ⟨400, "No documents provided"⟩, s) := by
  have ht2 : tokenMatches apiKey (String.mk ((splitChar ' ' auth.data)[1]?.getD [])) = true := by
    simpa [List.getD] using ht
  simp [run_webhook, hb, ht2, documentUrls]

theorem empty_documents_no_locators_400_witness :
    charsLead ("Bearer ".data) "Bearer secret".data = true ∧
    tokenMatches (some "secret")
        (String.mk ((splitChar ' ' "Bearer secret".data).getD 1 [])) = true ∧
    run_webhook netStub (some "secret") (some "Bearer secret")
        ⟨.inr [], ["q1", "q2"]⟩ initialState
      = (.error ⟨400, "No documents provided"⟩, initialState) :=
  ⟨by decide, by decide,
   empty_documents_no_locators_400 netStub (some "secret") "Bearer secret" ["q1", "q2"]
     initialState (by decide) (by decide)⟩

/-- Claim C8: the batch loop fetches the locators in input order; when every
fetch succeeds it returns the results in input order (their URLs are exactly
the input sequence, and the network trace extends by the URLs in order); on
the first failing locator it aborts with the 400 fault naming that locator,
and the network trace shows only the preceding locators (plus the failing one
when a GET was issued for it) — none of the remaining ones. -/
theorem batch_fail_fast_and_order (net : Net) (s : DLState) :
    (∀ urls, (∀ u ∈ urls, fetchOk net u = true) →
        ∃ docs s', downloadAll net urls s = (.ok docs, s') ∧
          docs.map DocInfo.url = urls ∧ s'.getTrace = s.getTrace ++ urls) ∧
    (∀ pre u post, (∀ v ∈ pre, fetchOk net v = true) → fetchOk net u = false →
        ∃ s', downloadAll net (pre ++ u :: post) s
            = (.error ⟨400, "Failed to download document: " ++ u⟩, s') ∧
          s'.getTrace = s.getTrace ++ pre ++
            (if (urlparse u).scheme = "" ∨ (urlparse u).netloc = "" then [] else [u])) :=
  ⟨fun urls h => downloadAll_all_ok net urls s h,
   fun pre u post hpre hu => downloadAll_first_error net pre u post s hpre hu⟩

theorem batch_fail_fast_and_order_witness :
    (∃ docs s', downloadAll netMixed ["http://a.example/doc.pdf"] initialState
          = (.ok docs, s') ∧
        docs.map DocInfo.url = ["http://a.example/doc.pdf"] ∧
        s'.getTrace = ([] : List String) ++ ["http://a.example/doc.pdf"]) ∧
    (∃ s', downloadAll netMixed
          (["http://a.example/doc.pdf"] ++ "http://b.example/x" :: ["http://z.example/y"])
          initialState
          = (.error ⟨400, "Failed to download document: http://b.example/x"⟩, s') ∧
        s'.getTrace = ([] : List String) ++ ["http://a.example/doc.pdf"] ++
          (if (urlparse "http://b.example/x").scheme = ""
              ∨ (urlparse "http://b.example/x").netloc = ""
           then [] else ["http://b.example/x"])) :=
  ⟨(batch_fail_fast_and_order netMixed initialState).1 ["http://a.example/doc.pdf"]
      (by decide),
   (batch_fail_fast_and_order netMixed initialState).2 ["http://a.example/doc.pdf"]
      "http://b.example/x" ["http://z.example/y"] (by decide) (by decide)⟩

/-- Sequential fetches as the process performs them: run `download_document`
for each URL in turn, threading the downloader state. -/
def runFetches (net : Net) (urls : List String) (s : DLState) : DLState :=
  match urls with
  | [] => s
  | u :: rest => runFetches net rest (download_document net u s).2

theorem download_document_session_fields (net : Net) (u : String) (st : DLState) :
    (download_document net u st).2.session = ((get_session st).2).session ∧
    (download_document net u st).2.sessionsCreated = ((get_session st).2).sessionsCreated ∧
    (download_document net u st).2.sessionLog = ((get_session st).2).sessionLog ∧
    (download_document net u st).2.sessionsClosed = ((get_session st).2).sessionsClosed := by
  by_cases hv : (urlparse u).scheme = "" ∨ (urlparse u).netloc = ""
  · rw [download_document_invalid net u st hv]
    exact ⟨rfl, rfl, rfl, rfl⟩
  · cases hn : net u with
    | clientFailure m =>
      rw [download_document_clientError net u m st hv hn]
      exact ⟨rfl, rfl, rfl, rfl⟩
    | otherFailure m =>
      rw [download_document_otherError net u m st hv hn]
      exact ⟨rfl, rfl, rfl, rfl⟩
    | success resp =>
      by_cases hs : resp.status = 200
      · refine ⟨?_, ?_, ?_, ?_⟩ <;> simp [download_document, download_body, hv, hn, hs]
      · rw [download_document_badStatus net u resp st hv hn hs]
        exact ⟨rfl, rfl, rfl, rfl⟩

theorem runFetches_inv (net : Net) (urls : List String) (st : DLState)
    (h1 : st.session = some 0) (h2 : st.sessionsCreated = 1)
    (h3 : st.sessionsClosed = 0) :
    (runFetches net urls st).session = some 0 ∧
    (runFetches net urls st).sessionsCreated = 1 ∧
    (runFetches net urls st).sessionsClosed = 0 ∧
    (runFetches net urls st).sessionLog
      = st.sessionLog ++ List.replicate urls.length 0 := by
  induction urls generalizing st with
  | nil => simp [runFetches, h1, h2, h3]
  | cons u rest ih =>
    obtain ⟨f1, f2, flog, fclosed⟩ := download_document_session_fields net u st
    have g : (get_session st).2 = { st with sessionLog := st.sessionLog ++ [0] } := by
      simp [get_session, h1]
    rw [g] at f1 f2 flog fclosed
    obtain ⟨i1, i2, i3, i4⟩ := ih (download_document net u st).2
      (by rw [f1]; exact h1) (by rw [f2]; exact h2) (by rw [fclosed]; exact h3)
    refine ⟨i1, i2, i3, ?_⟩
    show (runFetches net rest (download_document net u st).2).sessionLog = _
    rw [i4, flog]
    simp [List.replicate_succ]

/-- Claim C9: running any sequence of fetches from a fresh process creates the
shared client lazily — no client with no fetches, exactly one live client as
soon as any fetch runs, and every `get_session` call returns that same client
(the log is all zeros) — and the shutdown handler then tears down exactly as
many clients as were created (one close when a client exists, none
otherwise). -/
theorem session_lazy_singleton (net : Net) (urls : List String) :
    (runFetches net urls initialState).sessionsCreated
      = (if urls.isEmpty then 0 else 1) ∧
    (runFetches net urls initialState).sessionsCreated ≤ 1 ∧
    (runFetches net urls initialState).sessionLog = List.replicate urls.length 0 ∧
    (shutdown_event (runFetches net urls initialState)).sessionsClosed
      = (runFetches net urls initialState).sessionsCreated := by
  cases urls with
  | nil => exact ⟨rfl, Nat.zero_le 1, rfl, rfl⟩
  | cons u rest =>
    obtain ⟨f1, f2, flog, fclosed⟩ := download_document_session_fields net u initialState
    have g : (get_session initialState).2 = ⟨some 0, 1, 0, [0], 0, [], []⟩ := rfl
    rw [g] at f1 f2 flog fclosed
    obtain ⟨i1, i2, i3, i4⟩ := runFetches_inv net rest (download_document net u initialState).2
      (by rw [f1]) (by rw [f2]) (by rw [fclosed])
    have hrun : runFetches net (u :: rest) initialState
        = runFetches net rest (download_document net u initialState).2 := rfl
    refine ⟨?_, ?_, ?_, ?_⟩
    · rw [hrun, i2]
      rfl
    · rw [hrun, i2]
    · rw [hrun, i4, flog]
      simp [List.replicate_succ]
    · rw [hrun]
      simp [shutdown_event, close, i1, i3, i2]

theorem session_lazy_singleton_witness :
    ((runFetches netStub ["http://a.example/doc.pdf", "example.com/x"] initialState).sessionsCreated
      = (if (["http://a.example/doc.pdf", "example.com/x"] : List String).isEmpty then 0 else 1)) ∧
    (runFetches netStub ["http://a.example/doc.pdf", "example.com/x"] initialState).sessionsCreated ≤ 1 ∧
    (runFetches netStub ["http://a.example/doc.pdf", "example.com/x"] initialState).sessionLog
      = List.replicate (["http://a.example/doc.pdf", "example.com/x"] : List String).length 0 ∧
    (shutdown_event (runFetches netStub ["http://a.example/doc.pdf", "example.com/x"] initialState)).sessionsClosed
      = (runFetches netStub ["http://a.example/doc.pdf", "example.com/x"] initialState).sessionsCreated :=
  session_lazy_singleton netStub ["http://a.example/doc.pdf", "example.com/x"]

/-- Claim C10: whenever the endpoint answers 200 (which requires at least one
document), the batch produced a nonempty list of downloads and every answer is
the placeholder template applied to the first downloaded document's extension
and byte size and the question's own text — independent of the other documents
and of any document's contents. -/
theorem answers_depend_only_on_first_doc (net : Net) (apiKey : Option String)
    (auth : String) (body : RequestBody) (s s' : DLState) (answers : List String)
    (h : run_webhook net apiKey (some auth) body s = (.ok answers, s')) :
    ∃ d docs s₁, downloadAll net (documentUrls body.documents) s
        = (.ok (d :: docs), s₁) ∧
      answers = body.questions.map (answerTemplate d.extension d.size) := by
  simp only [run_webhook] at h
  by_cases hb : charsLead ("Bearer ".data) auth.data = true
  case neg => rw [if_neg hb] at h; simp at h
  rw [if_pos hb] at h
  by_cases ht : tokenMatches apiKey (String.mk ((splitChar ' ' auth.data).getD 1 [])) = true
  case neg => rw [if_neg ht] at h; simp at h
  rw [if_pos ht] at h
  by_cases he : (documentUrls body.documents).isEmpty = true
  · rw [if_pos he] at h
    simp at h
  rw [if_neg he] at h
  rcases hda : downloadAll net (documentUrls body.documents) s with ⟨r, s₁⟩
  rw [hda] at h
  cases r with
  | error e => simp at h
  | ok docs =>
    simp only [Prod.mk.injEq, Except.ok.injEq] at h
    have hmap := downloadAll_ok_map net (documentUrls body.documents) s docs s₁ hda
    cases docs with
    | nil =>
      rw [← hmap] at he
      simp at he
    | cons d ds =>
      refine ⟨d, ds, s₁, rfl, ?_⟩
      rw [← h.1]
      rfl

theorem answers_depend_only_on_first_doc_witness :
    run_webhook netMixed (some "k") (some "Bearer k")
        ⟨.inr ["http://a.example/doc.pdf"], ["q1", "q2"]⟩ initialState
      = (.ok ["Based on downloaded .pdf document (3 bytes): This is a placeholder answer for \x27q1\x27",
             "Based on downloaded .pdf document (3 bytes): This is a placeholder answer for \x27q2\x27"],
         (run_webhook netMixed (some "k") (some "Bearer k")
            ⟨.inr ["http://a.example/doc.pdf"], ["q1", "q2"]⟩ initialState).2) ∧
    (∃ d docs s₁, downloadAll netMixed
          (documentUrls (Sum.inr ["http://a.example/doc.pdf"])) initialState
        = (.ok (d :: docs), s₁) ∧
      ["Based on downloaded .pdf document (3 bytes): This is a placeholder answer for \x27q1\x27",
       "Based on downloaded .pdf document (3 bytes): This is a placeholder answer for \x27q2\x27"]
        = ["q1", "q2"].map (answerTemplate d.extension d.size)) :=
  ⟨rfl,
   answers_depend_only_on_first_doc netMixed (some "k") "Bearer k"
     ⟨.inr ["http://a.example/doc.pdf"], ["q1", "q2"]⟩ initialState _
     ["Based on downloaded .pdf document (3 bytes): This is a placeholder answer for \x27q1\x27",
      "Based on downloaded .pdf document (3 bytes): This is a placeholder answer for \x27q2\x27"]
     rfl⟩
